import Mathlib

/-!
Verification of the metabase-mcp-server request-dispatch and
credential-management layer.  The definitions below are a shallow
embedding of the TypeScript sources: the dispatch cases of
src/index.ts (the module the server actually runs) together with the
client logic shared verbatim with src/metabase_client.ts.  Upstream
HTTP traffic is modelled by explicit oracles; every call the code
would issue is collected in an output list so that temporal claims
about which requests happen can be stated and proved.  JavaScript
truthiness, template-literal interpolation of undefined values and
the logical-or defaulting idiom are modelled explicitly.
-/

namespace MetabaseMcp

/-- JS truthiness of a possibly-undefined string: undefined and the empty
string are falsy, every other string is truthy. -/
def jsTruthyOpt (o : Option String) : Bool :=
  match o with
  | some s => s ≠ ""
  | none => false

/-- The JS defaulting idiom a || b on a possibly-undefined string a. -/
def jsOr (o : Option String) (d : String) : String :=
  match o with
  | some s => if s = "" then d else s
  | none => d

/-- JS template-literal interpolation of a possibly-undefined string:
an undefined value renders as the text undefined. -/
def jsInterp (o : Option String) : String :=
  match o with
  | some s => s
  | none => "undefined"

/-- The value targetTableName || null used for the echoed parameters. -/
def jsOrNullOpt (o : Option String) : Option String :=
  if jsTruthyOpt o then o else none

/-- The single-quote character, needed to render the generated SQL text. -/
def sq : String := String.singleton (Char.ofNat 39)

/-- Anchored prefix test on strings, by character list. -/
def strStartsWith (s pre : String) : Bool := pre.data.isPrefixOf s.data

/-- Drops the first n characters of a string. -/
def strDropChars (s : String) (n : Nat) : String := String.mk (s.data.drop n)

/-- Leading and trailing whitespace removal, the JS trim on the
whitespace characters that occur here. -/
def strTrim (s : String) : String :=
  String.mk (((s.data.dropWhile Char.isWhitespace).reverse.dropWhile Char.isWhitespace).reverse)

/-- The replace(/apostrophe/g, two apostrophes) escaping applied to the
table name before it is interpolated into SQL. -/
def escapeSqlQuotes (s : String) : String := s.replace sq (sq ++ sq)

/-- Error codes of the custom McpError class defined in src/index.ts. -/
inductive McpCode
  | internalError
  | invalidRequest
  | invalidParams
  | methodNotFound
deriving DecidableEq, Repr

/-- The custom McpError carrying a code and a message. -/
structure McpErr where
  code : McpCode
  message : String
deriving DecidableEq, Repr

/-- The plain object thrown by request on a non-2xx response, as the
catch blocks read it: an optional message (the status text) and the
optional message field of the parsed error body. -/
structure ApiErr where
  message : Option String
  dataMessage : Option String
deriving DecidableEq, Repr

/-- A value thrown inside a try block of a handler: either an upstream
ApiError-shaped object or a McpError. -/
inductive Thrown
  | api (e : ApiErr)
  | mcp (e : McpErr)
deriving DecidableEq, Repr

/-- The data?.message field of a thrown value as the catch blocks read it. -/
def Thrown.dataMsg : Thrown → Option String
  | .api e => e.dataMessage
  | .mcp _ => none

/-- The message field of a thrown value as the catch blocks read it. -/
def Thrown.msg : Thrown → Option String
  | .api e => e.message
  | .mcp e => some e.message

/-- The expression apiError.data?.message || apiError.message ||
the text Unknown error, used by the catch-all handlers. -/
def thrownMessage (t : Thrown) : String :=
  jsOr t.dataMsg (jsOr t.msg "Unknown error")

/-- Result rows of a dataset query; row contents are opaque here. -/
abbrev Rows := List String

/-- The parts of a POST /api/dataset response body the aggregator
inspects: data.rows when present, the status field, the error field. -/
structure DatasetResponse where
  dataRows : Option Rows
  status : Option String
  error : Option String
deriving DecidableEq, Repr

/-- Outcome of one POST /api/dataset call: either the request method
threw (non-2xx status, network failure) or a parsed response body. -/
inductive Outcome
  | thrown (e : ApiErr)
  | resp (r : DatasetResponse)
deriving DecidableEq, Repr

/-- One native-query payload sent to POST /api/dataset by the
diagnostics aggregator. -/
structure DiagPayload where
  path : String
  queryType : String
  query : String
  database : Int
deriving DecidableEq, Repr

/-- The SQL text built for the slow-query sub-query, with the limit
interpolated. -/
def slowQuerySql (n : Int) : String :=
  "\n        SELECT queryid, calls, total_exec_time, mean_exec_time, rows, query \n        FROM pg_stat_statements \n        ORDER BY total_exec_time DESC \n        LIMIT " ++ toString n ++ ";\n      "

/-- The SQL text built for the index-usage sub-query, with the escaped
table name interpolated between single quotes. -/
def indexUsageSql (t : String) : String :=
  "\n          SELECT sui.schemaname, sui.relname AS table_name, sui.indexrelname AS index_name, sui.idx_scan AS index_scans, \n                 pg_size_pretty(pg_relation_size(pi.indexrelid)) as index_size \n          FROM pg_stat_user_indexes sui\n          JOIN pg_indexes pi ON sui.indexrelid = pi.indexrelid\n          WHERE sui.relname = " ++ sq ++ escapeSqlQuotes t ++ sq ++ ";\n        "

/-- The SQL text built for the table-scan sub-query, with the escaped
table name interpolated between single quotes. -/
def tableScanSql (t : String) : String :=
  "\n          SELECT schemaname, relname AS table_name, seq_scan AS sequential_scans, idx_scan AS total_index_scans,\n                 n_live_tup as live_rows, n_dead_tup as dead_rows\n          FROM pg_stat_user_tables \n          WHERE relname = " ++ sq ++ escapeSqlQuotes t ++ sq ++ ";\n        "

/-- The per-table part of the diagnostics report, initialised with empty
row lists and mutated field by field as the two table queries resolve. -/
structure TableAnalysis where
  table_name : String
  index_usage : Rows
  scan_stats : Rows
  index_usage_error : Option String := none
  scan_stats_error : Option String := none
deriving DecidableEq, Repr

/-- The parameters_used echo block of the diagnostics report. -/
structure ParametersUsed where
  num_slow_queries : Int
  target_table_name : Option String
deriving DecidableEq, Repr

/-- The composite diagnostics report assembled by
_fetchPostgresDiagnostics. -/
structure DiagnosticsReport where
  database_id : Int
  parameters_used : ParametersUsed
  slow_queries : Rows := []
  slow_queries_error : Option String := none
  table_analysis : Option TableAnalysis := none
  table_analysis_error : Option String := none
deriving DecidableEq, Repr

/-- The ternary initialising results.table_analysis: a record with empty
lists when targetTableName is truthy, undefined otherwise. -/
def initTableAnalysis (t : Option String) : Option TableAnalysis :=
  match t with
  | some s => if s = "" then none else some { table_name := s, index_usage := [], scan_stats := [] }
  | none => none

/-- The results object as first initialised by _fetchPostgresDiagnostics
before any query runs. -/
def initDiagReport (databaseId : Int) (numSlowQueries : Int) (targetTableName : Option String) :
    DiagnosticsReport :=
  { database_id := databaseId
    parameters_used :=
      { num_slow_queries := numSlowQueries
        target_table_name := jsOrNullOpt targetTableName }
    slow_queries := []
    table_analysis := initTableAnalysis targetTableName }

/-- Effect of the first try block (the slow-query sub-query) on the
report, given the outcome of its dataset call. -/
def applySlowQueryOutcome (o : Outcome) (r : DiagnosticsReport) : DiagnosticsReport :=
  match o with
  | .resp resp =>
    match resp.dataRows with
    | some rows => { r with slow_queries := rows }
    | none =>
      if resp.status = some "failed" then
        { r with
            slow_queries_error := some ("Query execution failed: " ++ jsInterp resp.error ++
              ". Ensure pg_stat_statements is enabled and permissions are correct.") }
      else if jsTruthyOpt resp.error then
        { r with
            slow_queries_error := some ("Query returned an error: " ++ jsInterp resp.error ++ ".") }
      else
        { r with
            slow_queries_error := some "Unexpected response structure from Metabase for slow queries." }
  | .thrown e =>
    { r with
        slow_queries_error := some ("Failed to fetch from pg_stat_statements: " ++
          jsOr e.message "Unknown error" ++ ". " ++ jsOr e.dataMessage "" ++
          ". Ensure the extension is enabled and Metabase user has permissions.") }

/-- Effect of a parsed index-usage response body on the table analysis. -/
def applyIndexUsageResp (resp : DatasetResponse) (ta : TableAnalysis) : TableAnalysis :=
  match resp.dataRows with
  | some rows => { ta with index_usage := rows }
  | none =>
    if resp.status = some "failed" then
      { ta with index_usage_error := some ("Query execution failed: " ++ jsInterp resp.error) }
    else if jsTruthyOpt resp.error then
      { ta with index_usage_error := some ("Query returned an error: " ++ jsInterp resp.error) }
    else
      { ta with index_usage_error := some "Unexpected response structure from Metabase for index usage." }

/-- Effect of a parsed table-scan response body on the table analysis. -/
def applyScanStatsResp (resp : DatasetResponse) (ta : TableAnalysis) : TableAnalysis :=
  match resp.dataRows with
  | some rows => { ta with scan_stats := rows }
  | none =>
    if resp.status = some "failed" then
      { ta with scan_stats_error := some ("Query execution failed: " ++ jsInterp resp.error) }
    else if jsTruthyOpt resp.error then
      { ta with scan_stats_error := some ("Query returned an error: " ++ jsInterp resp.error) }
    else
      { ta with scan_stats_error := some "Unexpected response structure from Metabase for table scans." }

/-- Message recorded when the table-specific try block throws. -/
def tableCatchMsg (t : String) (e : ApiErr) : String :=
  "Failed to fetch diagnostics for table " ++ t ++ ": " ++ jsOr e.message "Unknown error" ++ ". " ++ jsOr e.dataMessage ""

/-- A native-query payload POSTed to the dataset endpoint. -/
def diagPayload (q : String) (db : Int) : DiagPayload :=
  { path := "/api/dataset", queryType := "native", query := q, database := db }

/-- The second try block of _fetchPostgresDiagnostics: runs the two
table-specific sub-queries sequentially when targetTableName and the
initialised table_analysis are both present, catching any thrown error
into the top-level table_analysis_error field.  The oracle gives the
outcome of the dataset call with the given index; call 1 is index
usage, call 2 is table scans.  Also returns the payloads issued. -/
def tableBlock (oracle : Nat → Outcome) (databaseId : Int) (targetTableName : Option String)
    (r : DiagnosticsReport) : DiagnosticsReport × List DiagPayload :=
  match targetTableName, r.table_analysis with
  | some t, some ta =>
    if t = "" then (r, [])
    else
      let p1 := diagPayload (indexUsageSql t) databaseId
      match oracle 1 with
      | .thrown e =>
        ({ r with table_analysis_error := some (tableCatchMsg t e) }, [p1])
      | .resp resp1 =>
        let ta1 := applyIndexUsageResp resp1 ta
        let p2 := diagPayload (tableScanSql t) databaseId
        match oracle 2 with
        | .thrown e =>
          ({ r with table_analysis := some ta1, table_analysis_error := some (tableCatchMsg t e) }, [p1, p2])
        | .resp resp2 =>
          ({ r with table_analysis := some (applyScanStatsResp resp2 ta1) }, [p1, p2])
  | _, _ => (r, [])

/-- Shallow embedding of _fetchPostgresDiagnostics (src/index.ts): build
the initial report, run the slow-query block, then the table block,
and return the report together with the dataset payloads issued in
order.  The oracle maps the call index (0 = slow queries, 1 = index
usage, 2 = table scans) to the outcome of that call. -/
def fetchPostgresDiagnostics (oracle : Nat → Outcome) (databaseId : Int) (numSlowQueries : Int)
    (targetTableName : Option String) : DiagnosticsReport × List DiagPayload :=
  let r0 := initDiagReport databaseId numSlowQueries targetTableName
  let p0 := diagPayload (slowQuerySql numSlowQueries) databaseId
  let r1 := applySlowQueryOutcome (oracle 0) r0
  let res := tableBlock oracle databaseId targetTableName r1
  (res.1, p0 :: res.2)

/-- The two authentication methods of the AuthMethod enum. -/
inductive AuthMethod
  | session
  | api_key
deriving DecidableEq, Repr

/-- The mutable client state relevant to authentication: the chosen
method, the configured API key and the cached session token. -/
structure ClientState where
  authMethod : AuthMethod
  apiKey : Option String
  sessionToken : Option String
deriving DecidableEq, Repr

/-- The environment inputs read at startup. -/
structure Env where
  metabaseUrl : Option String
  userEmail : Option String
  password : Option String
  apiKey : Option String
deriving DecidableEq, Repr

/-- Shallow embedding of the constructor checks and auth-method
selection: none models the configuration error thrown at startup;
a truthy API key selects API-key mode, otherwise session mode. -/
def mkClient (env : Env) : Option ClientState :=
  if ¬ jsTruthyOpt env.metabaseUrl ∨
      (¬ jsTruthyOpt env.apiKey ∧ (¬ jsTruthyOpt env.userEmail ∨ ¬ jsTruthyOpt env.password)) then
    none
  else if jsTruthyOpt env.apiKey then
    some { authMethod := .api_key, apiKey := env.apiKey, sessionToken := none }
  else
    some { authMethod := .session, apiKey := none, sessionToken := none }

/-- Headers attached by the request method: the fixed Content-Type, then
X-API-KEY when in API-key mode with a truthy key, else
X-Metabase-Session when in session mode with a truthy cached token. -/
def requestHeaders (c : ClientState) : List (String × String) :=
  let base := [("Content-Type", "application/json")]
  if c.authMethod = .api_key ∧ jsTruthyOpt c.apiKey then
    base ++ [("X-API-KEY", c.apiKey.getD "")]
  else if c.authMethod = .session ∧ jsTruthyOpt c.sessionToken then
    base ++ [("X-Metabase-Session", c.sessionToken.getD "")]
  else
    base

/-- One authentication request issued to POST /api/session, recorded
with the headers the request method attached at that moment. -/
structure LoginCall where
  path : String
  headers : List (String × String)
deriving DecidableEq, Repr

/-- Shallow embedding of getSessionToken: in API-key mode with a truthy
key, return the key at once; in session mode return the cached token
when truthy; otherwise issue one POST /api/session through request
(whose outcome the loginOracle gives as the id field of the parsed
body, or a thrown upstream error), cache the id and return it, or fail
with an internal McpError.  Returns the result, the updated state and
the list of login calls issued. -/
def getSessionToken (loginOracle : Except ApiErr String) (c : ClientState) :
    Except McpErr String × ClientState × List LoginCall :=
  if c.authMethod = .api_key ∧ jsTruthyOpt c.apiKey then
    (.ok (c.apiKey.getD ""), c, [])
  else if jsTruthyOpt c.sessionToken then
    (.ok (c.sessionToken.getD ""), c, [])
  else
    let call : LoginCall := { path := "/api/session", headers := requestHeaders c }
    match loginOracle with
    | .ok id => (.ok id, { c with sessionToken := some id }, [call])
    | .error _ => (.error { code := .internalError, message := "Failed to authenticate with Metabase" }, c, [call])

/-- Runs getSessionToken n times in sequence, threading the client state
and concatenating the login calls issued; the oracle sequence gives
the outcome of each successive login attempt. -/
def getSessionTokenSeq (oracleSeq : Nat → Except ApiErr String) (c : ClientState) :
    Nat → ClientState × List LoginCall
  | 0 => (c, [])
  | n + 1 =>
    let step := getSessionToken (oracleSeq 0) c
    let rest := getSessionTokenSeq (fun i => oracleSeq (i + 1)) step.2.1 n
    (rest.1, step.2.2 ++ rest.2)

/-- A JS argument value as the untyped dispatch switch sees it: a number
or a string. -/
inductive JsVal
  | num (n : Int)
  | str (s : String)
deriving DecidableEq, Repr

/-- JS truthiness of an argument value. -/
def JsVal.truthy : JsVal → Bool
  | .num n => n ≠ 0
  | .str s => s ≠ ""

/-- The typeof v === number check. -/
def JsVal.isNumber : JsVal → Bool
  | .num _ => true
  | .str _ => false

/-- Template-literal rendering of an argument value. -/
def JsVal.render : JsVal → String
  | .num n => toString n
  | .str s => s

/-- JS truthiness of a possibly-absent argument value. -/
def jsArgTruthy (o : Option JsVal) : Bool :=
  match o with
  | some v => v.truthy
  | none => false

/-- The JSON body built by the execute_query dispatch case. -/
structure ExecuteQueryBody where
  queryType : String
  nativeQuery : String
  templateTags : List (String × String)
  parameters : List String
  database : Int
deriving DecidableEq, Repr

/-- Arguments of a schema-valid execute_query invocation. -/
structure ExecuteQueryArgs where
  database_id : Int
  query : String
  native_parameters : Option (List String)
deriving DecidableEq, Repr

/-- Shallow embedding of the execute_query dispatch case of
src/index.ts: falsy database_id or query throw InvalidParams before
any call; otherwise exactly one POST /api/dataset is issued with the
native query body.  The oracle gives the upstream outcome; the issued
calls are returned as path-body pairs. -/
def executeQueryCase (oracle : ExecuteQueryBody → Except ApiErr String) (args : ExecuteQueryArgs) :
    Except Thrown String × List (String × ExecuteQueryBody) :=
  let nativeParameters := args.native_parameters.getD []
  if args.database_id = 0 then
    (.error (.mcp { code := .invalidParams, message := "Database ID parameter is required" }), [])
  else if args.query = "" then
    (.error (.mcp { code := .invalidParams, message := "SQL query parameter is required" }), [])
  else
    let body : ExecuteQueryBody :=
      { queryType := "native"
        nativeQuery := args.query
        templateTags := []
        parameters := nativeParameters
        database := args.database_id }
    match oracle body with
    | .ok resp => (.ok resp, [("/api/dataset", body)])
    | .error e => (.error (.api e), [("/api/dataset", body)])

/-- Shallow embedding of the execute_card dispatch case: a falsy card_id
throws InvalidParams before any call; otherwise one POST to the card
query endpoint is issued with the given parameters object. -/
def executeCardCase (oracle : String → Except ApiErr String) (card_id : Option JsVal)
    (parameters : Option (List (String × String))) :
    Except Thrown String × List (String × List (String × String)) :=
  if ¬ jsArgTruthy card_id then
    (.error (.mcp { code := .invalidParams, message := "Card ID parameter is required" }), [])
  else
    let ps := parameters.getD []
    let path := "/api/card/" ++ (card_id.map JsVal.render).getD "" ++ "/query"
    match oracle path with
    | .ok resp => (.ok resp, [(path, ps)])
    | .error e => (.error (.api e), [(path, ps)])

/-- The parts of a dashboard response the get_dashboard_cards case
reads: its optional cards array. -/
structure DashboardResp where
  cards : Option (List String)
deriving DecidableEq, Repr

/-- Shallow embedding of the get_dashboard_cards dispatch case: a falsy
dashboard_id throws InvalidParams before any call; otherwise one GET
of the dashboard is issued and its cards field is returned. -/
def getDashboardCardsCase (oracle : String → Except ApiErr DashboardResp)
    (dashboard_id : Option JsVal) :
    Except Thrown (Option (List String)) × List String :=
  if ¬ jsArgTruthy dashboard_id then
    (.error (.mcp { code := .invalidParams, message := "Dashboard ID parameter is required" }), [])
  else
    let path := "/api/dashboard/" ++ (dashboard_id.map JsVal.render).getD ""
    match oracle path with
    | .ok resp => (.ok resp.cards, [path])
    | .error e => (.error (.api e), [path])

/-- Arguments of a get_postgres_performance_diagnostics invocation as
the untyped dispatch switch sees them. -/
structure DiagArgsJs where
  database_id : Option JsVal
  num_slow_queries : Option JsVal
  target_table_name : Option JsVal
deriving DecidableEq, Repr

/-- Normalisation of the num_slow_queries argument by the dispatch
case: undefined becomes 10 silently; a non-number or non-positive
number becomes 10 with a warning; a positive number is kept. -/
def normaliseNumSlowQueries (v : Option JsVal) : Int × List String :=
  match v with
  | none => (10, [])
  | some (.num m) =>
    if m ≤ 0 then (10, ["Invalid num_slow_queries parameter, using default 10"]) else (m, [])
  | some (.str _) => (10, ["Invalid num_slow_queries parameter, using default 10"])

/-- Normalisation of the target_table_name argument by the dispatch
case: a string that is nonblank after trimming is kept; anything else
present is dropped with a warning; undefined stays absent silently. -/
def normaliseTargetTable (v : Option JsVal) : Option String × List String :=
  match v with
  | none => (none, [])
  | some (.str s) =>
    if strTrim s ≠ "" then (some s, [])
    else (none, ["Invalid target_table_name parameter (e.g., empty or not a string), will be ignored."])
  | some (.num _) =>
    (none, ["Invalid target_table_name parameter (e.g., empty or not a string), will be ignored."])

/-- Shallow embedding of the get_postgres_performance_diagnostics
dispatch case of src/index.ts: validates database_id (falsy or
non-number throws InvalidParams), normalises num_slow_queries and
target_table_name, then delegates to fetchPostgresDiagnostics.
Returns the outcome (report and dataset payloads issued) and the
warning messages logged. -/
def getPostgresDiagnosticsCase (oracle : Nat → Outcome) (args : DiagArgsJs) :
    Except Thrown (DiagnosticsReport × List DiagPayload) × List String :=
  match args.database_id with
  | some (.num d) =>
    if d = 0 then
      (.error (.mcp { code := .invalidParams, message := "database_id is required and must be a number." }), [])
    else
      let numRes := normaliseNumSlowQueries args.num_slow_queries
      let tblRes := normaliseTargetTable args.target_table_name
      (.ok (fetchPostgresDiagnostics oracle d numRes.1 tblRes.1), numRes.2 ++ tblRes.2)
  | _ =>
    (.error (.mcp { code := .invalidParams, message := "database_id is required and must be a number." }), [])

/-- The three resource kinds of the fixed URI patterns. -/
inductive ResourceKind
  | dashboard
  | card
  | database
deriving DecidableEq, Repr

/-- One or more decimal digits, the regex group backslash-d-plus. -/
def digitsOnly (s : String) : Bool :=
  s.data ≠ [] && s.data.all Char.isDigit

/-- Matches an anchored pattern prefix followed by a digit group. -/
def matchResourcePattern (pre : String) (uri : String) : Option String :=
  if strStartsWith uri pre && digitsOnly (strDropChars uri pre.data.length) then
    some (strDropChars uri pre.data.length)
  else none

/-- Tries the three fixed URI patterns in the order of the source. -/
def matchResourceUri (uri : String) : Option (ResourceKind × String) :=
  match matchResourcePattern "metabase://dashboard/" uri with
  | some id => some (.dashboard, id)
  | none =>
    match matchResourcePattern "metabase://card/" uri with
    | some id => some (.card, id)
    | none =>
      match matchResourcePattern "metabase://database/" uri with
      | some id => some (.database, id)
      | none => none

/-- The contents entry returned for a successful resource read. -/
structure ResourceContents where
  uri : String
  mimeType : String
  text : String
deriving DecidableEq, Repr

/-- The upstream GET path for a matched resource. -/
def resourcePath (k : ResourceKind) (id : String) : String :=
  match k with
  | .dashboard => "/api/dashboard/" ++ id
  | .card => "/api/card/" ++ id
  | .database => "/api/database/" ++ id

/-- The try block of the read-resource handler: a matched URI proxies
one upstream GET (whose thrown failures surface as ApiError-shaped
values); an unmatched URI throws a McpError with code InvalidRequest. -/
def readResourceTryBody (oracle : String → Except ApiErr String) (u : String) :
    Except Thrown ResourceContents :=
  match matchResourceUri u with
  | some (k, id) =>
    match oracle (resourcePath k id) with
    | .ok resp => .ok { uri := u, mimeType := "application/json", text := resp }
    | .error e => .error (.api e)
  | none => .error (.mcp { code := .invalidRequest, message := "Invalid URI format: " ++ u })

/-- Shallow embedding of the read-resource handler of src/index.ts:
first getSessionToken (whose failure propagates), then the missing-uri
check throwing InvalidParams, then the try block whose every thrown
value, the InvalidRequest for an unmatched URI included, is caught by
the catch-all and rewrapped as an InternalError with the Metabase API
error prefix. -/
def readResourceHandler (auth : Except McpErr String) (oracle : String → Except ApiErr String)
    (uri : Option String) : Except McpErr ResourceContents :=
  match auth with
  | .error e => .error e
  | .ok _ =>
    match uri with
    | none => .error { code := .invalidParams, message := "URI parameter is required" }
    | some u =>
      match readResourceTryBody oracle u with
      | .ok c => .ok c
      | .error th => .error { code := .internalError, message := "Metabase API error: " ++ thrownMessage th }

/-- Projects the report out of a successful diagnostics dispatch. -/
def okDiagReport (r : Except Thrown (DiagnosticsReport × List DiagPayload)) :
    Option DiagnosticsReport :=
  match r with
  | .ok p => some p.1
  | .error _ => none

/-- Projects the issued payloads out of a successful diagnostics dispatch. -/
def okDiagPayloads (r : Except Thrown (DiagnosticsReport × List DiagPayload)) :
    Option (List DiagPayload) :=
  match r with
  | .ok p => some p.2
  | .error _ => none

/-- An upstream oracle answering every GET with a fixed opaque body. -/
def okStringOracle : String → Except ApiErr String := fun _ => .ok "body"

/-- An upstream oracle answering every dashboard GET with an empty cards
array. -/
def okDashboardOracle : String → Except ApiErr DashboardResp := fun _ => .ok { cards := some [] }

/-- An upstream oracle answering every dataset POST with a fixed body. -/
def okDatasetOracle : ExecuteQueryBody → Except ApiErr String := fun _ => .ok "body"

/-- The index-usage error field of a report, none when no table analysis
is present. -/
def reportIndexUsageError (r : DiagnosticsReport) : Option String :=
  match r.table_analysis with
  | some ta => ta.index_usage_error
  | none => none

/-- The scan-stats error field of a report, none when no table analysis
is present. -/
def reportScanStatsError (r : DiagnosticsReport) : Option String :=
  match r.table_analysis with
  | some ta => ta.scan_stats_error
  | none => none

/-- The index-usage rows of a report when a table analysis is present. -/
def reportIndexUsage (r : DiagnosticsReport) : Option Rows :=
  r.table_analysis.map TableAnalysis.index_usage

/-- The scan-stats rows of a report when a table analysis is present. -/
def reportScanStats (r : DiagnosticsReport) : Option Rows :=
  r.table_analysis.map TableAnalysis.scan_stats

theorem applySlowQueryOutcome_table_analysis (o : Outcome) (r : DiagnosticsReport) :
    (applySlowQueryOutcome o r).table_analysis = r.table_analysis := by
  unfold applySlowQueryOutcome
  cases o with
  | thrown e => rfl
  | resp resp =>
    cases h : resp.dataRows with
    | some rows => simp only [h]
    | none =>
      simp only [h]
      split
      · rfl
      · split <;> rfl

theorem applySlowQueryOutcome_parameters_used (o : Outcome) (r : DiagnosticsReport) :
    (applySlowQueryOutcome o r).parameters_used = r.parameters_used := by
  unfold applySlowQueryOutcome
  cases o with
  | thrown e => rfl
  | resp resp =>
    cases h : resp.dataRows with
    | some rows => simp only [h]
    | none =>
      simp only [h]
      split
      · rfl
      · split <;> rfl

theorem tableBlock_slow_fields (oracle : Nat → Outcome) (db : Int) (tt : Option String)
    (r : DiagnosticsReport) :
    (tableBlock oracle db tt r).1.slow_queries = r.slow_queries ∧
    (tableBlock oracle db tt r).1.slow_queries_error = r.slow_queries_error ∧
    (tableBlock oracle db tt r).1.parameters_used = r.parameters_used := by
  unfold tableBlock
  cases tt with
  | none => cases r.table_analysis <;> exact ⟨rfl, rfl, rfl⟩
  | some t =>
    cases h : r.table_analysis with
    | none => exact ⟨rfl, rfl, rfl⟩
    | some ta =>
      by_cases ht : t = ""
      · simp only [ht, if_pos rfl]; exact ⟨rfl, rfl, rfl⟩
      · simp only [if_neg ht]
        cases oracle 1 with
        | thrown e => exact ⟨rfl, rfl, rfl⟩
        | resp r1 => cases oracle 2 <;> exact ⟨rfl, rfl, rfl⟩

/-- C10: in the dispatch switch, the presence checks for required
numeric ids use falsiness, so an execute_card invocation with card_id 0
and a get_dashboard_cards invocation with dashboard_id 0 are rejected
with an InvalidParams error before any upstream call, exactly as if the
argument were missing, even though 0 is a well-typed number. -/
theorem dispatch_zero_ids_rejected_as_missing :
    executeCardCase okStringOracle (some (.num 0)) none =
      (.error (.mcp { code := .invalidParams, message := "Card ID parameter is required" }), []) ∧
    getDashboardCardsCase okDashboardOracle (some (.num 0)) =
      (.error (.mcp { code := .invalidParams, message := "Dashboard ID parameter is required" }), []) := by
  exact ⟨rfl, rfl⟩

/-- C4: the absent-uri check does fail with InvalidParams, but a present
uri matching none of the three patterns is rejected by a McpError with
code InvalidRequest thrown inside the try block, which the catch-all
rewraps, so the error actually returned to the caller for
metabase://widget/1 is classified InternalError, contradicting the
InvalidRequest classification the specification states. -/
theorem readResource_malformed_uri_wrapped_internal :
    readResourceHandler (.ok "token") okStringOracle (some "metabase://widget/1") =
      .error { code := .internalError,
               message := "Metabase API error: Invalid URI format: metabase://widget/1" } ∧
    readResourceHandler (.ok "token") okStringOracle none =
      .error { code := .invalidParams, message := "URI parameter is required" } := by
  exact ⟨rfl, rfl⟩

/-- C3 counterexample: database_id 0 is schema-valid (a well-typed
number), yet the execute_query dispatch case rejects it through the
falsiness check and issues zero POSTs, so the claimed exactly-one-POST
property fails at this input. -/
theorem executeQuery_zero_database_id_no_post :
    executeQueryCase okDatasetOracle
      { database_id := 0, query := "SELECT 1", native_parameters := none } =
      (.error (.mcp { code := .invalidParams, message := "Database ID parameter is required" }), []) := by
  exact rfl

/-- C3 amended: for every schema-valid execute_query invocation whose
database_id and query are truthy (nonzero, nonempty), the handler
issues exactly one POST to /api/dataset whose JSON body is type native,
the native query with empty template tags, parameters defaulting to the
empty array when native_parameters is absent, and the database id sent
under the key database. -/
theorem executeQuery_single_post_body (oracle : ExecuteQueryBody → Except ApiErr String)
    (args : ExecuteQueryArgs) (hdb : args.database_id ≠ 0) (hq : args.query ≠ "") :
    (executeQueryCase oracle args).2 =
      [("/api/dataset",
        { queryType := "native"
          nativeQuery := args.query
          templateTags := []
          parameters := args.native_parameters.getD []
          database := args.database_id })] := by
  unfold executeQueryCase
  simp only [if_neg hdb, if_neg hq]
  cases oracle { queryType := "native", nativeQuery := args.query, templateTags := [],
                 parameters := args.native_parameters.getD [], database := args.database_id } <;> rfl

theorem executeQuery_single_post_body_witness :
    (executeQueryCase okDatasetOracle
      { database_id := 2, query := "SELECT 1", native_parameters := none }).2 =
      [("/api/dataset",
        { queryType := "native"
          nativeQuery := "SELECT 1"
          templateTags := []
          parameters := []
          database := 2 })] := by
  exact executeQuery_single_post_body okDatasetOracle
    { database_id := 2, query := "SELECT 1", native_parameters := none }
    (by decide) (by decide)

theorem tableBlock_thrown1 (oracle : Nat → Outcome) (db : Int) (t : String) (ht : t ≠ "")
    (r : DiagnosticsReport) (ta : TableAnalysis) (hta : r.table_analysis = some ta)
    (e : ApiErr) (h1 : oracle 1 = .thrown e) :
    tableBlock oracle db (some t) r =
      ({ r with table_analysis_error := some (tableCatchMsg t e) },
       [diagPayload (indexUsageSql t) db]) := by
  unfold tableBlock
  rw [hta]
  simp only [if_neg ht, h1]

theorem tableBlock_resp1_thrown2 (oracle : Nat → Outcome) (db : Int) (t : String) (ht : t ≠ "")
    (r : DiagnosticsReport) (ta : TableAnalysis) (hta : r.table_analysis = some ta)
    (r1 : DatasetResponse) (e : ApiErr) (h1 : oracle 1 = .resp r1) (h2 : oracle 2 = .thrown e) :
    tableBlock oracle db (some t) r =
      ({ r with table_analysis := some (applyIndexUsageResp r1 ta),
                table_analysis_error := some (tableCatchMsg t e) },
       [diagPayload (indexUsageSql t) db, diagPayload (tableScanSql t) db]) := by
  unfold tableBlock
  rw [hta]
  simp only [if_neg ht, h1, h2]

theorem tableBlock_resp1_resp2 (oracle : Nat → Outcome) (db : Int) (t : String) (ht : t ≠ "")
    (r : DiagnosticsReport) (ta : TableAnalysis) (hta : r.table_analysis = some ta)
    (r1 r2 : DatasetResponse) (h1 : oracle 1 = .resp r1) (h2 : oracle 2 = .resp r2) :
    tableBlock oracle db (some t) r =
      ({ r with table_analysis := some (applyScanStatsResp r2 (applyIndexUsageResp r1 ta)) },
       [diagPayload (indexUsageSql t) db, diagPayload (tableScanSql t) db]) := by
  unfold tableBlock
  rw [hta]
  simp only [if_neg ht, h1, h2]

theorem slowReport_table_analysis (oracle : Nat → Outcome) (db n : Int) (s : String)
    (hs : s ≠ "") :
    (applySlowQueryOutcome (oracle 0) (initDiagReport db n (some s))).table_analysis =
      some { table_name := s, index_usage := [], scan_stats := [] } := by
  rw [applySlowQueryOutcome_table_analysis]
  simp [initDiagReport, initTableAnalysis, hs]

theorem applyIndexUsageResp_rows (resp : DatasetResponse) (ta : TableAnalysis) (rows : Rows)
    (h : resp.dataRows = some rows) :
    applyIndexUsageResp resp ta = { ta with index_usage := rows } := by
  unfold applyIndexUsageResp
  rw [h]

theorem applyIndexUsageResp_err (resp : DatasetResponse) (ta : TableAnalysis)
    (h : resp.dataRows = none) :
    (applyIndexUsageResp resp ta).index_usage_error.isSome = true := by
  unfold applyIndexUsageResp
  simp only [h]
  split
  · rfl
  · split <;> rfl

theorem applyIndexUsageResp_scan_fields (resp : DatasetResponse) (ta : TableAnalysis) :
    (applyIndexUsageResp resp ta).scan_stats = ta.scan_stats ∧
    (applyIndexUsageResp resp ta).scan_stats_error = ta.scan_stats_error := by
  unfold applyIndexUsageResp
  cases h : resp.dataRows with
  | some rows => simp [h]
  | none =>
    simp only [h]
    split
    · exact ⟨rfl, rfl⟩
    · split <;> exact ⟨rfl, rfl⟩

theorem applyScanStatsResp_rows (resp : DatasetResponse) (ta : TableAnalysis) (rows : Rows)
    (h : resp.dataRows = some rows) :
    applyScanStatsResp resp ta = { ta with scan_stats := rows } := by
  unfold applyScanStatsResp
  rw [h]

theorem applyScanStatsResp_err (resp : DatasetResponse) (ta : TableAnalysis)
    (h : resp.dataRows = none) :
    (applyScanStatsResp resp ta).scan_stats_error.isSome = true := by
  unfold applyScanStatsResp
  simp only [h]
  split
  · rfl
  · split <;> rfl

theorem applyScanStatsResp_index_fields (resp : DatasetResponse) (ta : TableAnalysis) :
    (applyScanStatsResp resp ta).index_usage = ta.index_usage ∧
    (applyScanStatsResp resp ta).index_usage_error = ta.index_usage_error := by
  unfold applyScanStatsResp
  cases h : resp.dataRows with
  | some rows => simp [h]
  | none =>
    simp only [h]
    split
    · exact ⟨rfl, rfl⟩
    · split <;> exact ⟨rfl, rfl⟩

theorem fetchPostgresDiagnostics_eq (oracle : Nat → Outcome) (db n : Int) (tt : Option String) :
    fetchPostgresDiagnostics oracle db n tt =
      ((tableBlock oracle db tt (applySlowQueryOutcome (oracle 0) (initDiagReport db n tt))).1,
       diagPayload (slowQuerySql n) db ::
         (tableBlock oracle db tt (applySlowQueryOutcome (oracle 0) (initDiagReport db n tt))).2) := by
  rfl

theorem reportIndexUsageError_eq (r : DiagnosticsReport) (ta : TableAnalysis)
    (h : r.table_analysis = some ta) : reportIndexUsageError r = ta.index_usage_error := by
  simp only [reportIndexUsageError, h]

theorem reportScanStatsError_eq (r : DiagnosticsReport) (ta : TableAnalysis)
    (h : r.table_analysis = some ta) : reportScanStatsError r = ta.scan_stats_error := by
  simp only [reportScanStatsError, h]

theorem reportIndexUsage_eq (r : DiagnosticsReport) (ta : TableAnalysis)
    (h : r.table_analysis = some ta) : reportIndexUsage r = some ta.index_usage := by
  simp only [reportIndexUsage, h, Option.map]

theorem reportScanStats_eq (r : DiagnosticsReport) (ta : TableAnalysis)
    (h : r.table_analysis = some ta) : reportScanStats r = some ta.scan_stats := by
  simp only [reportScanStats, h, Option.map]

/-- C1: the diagnostics aggregator always assembles a DiagnosticsReport
and never raises: the slow-query fields of the returned report are
exactly those produced by step 1 and are never altered by the
table-specific block; a thrown slow-query call populates
slow_queries_error; a present nonblank targetTableName still causes the
table-analysis sub-queries to be issued after a slow-query failure; and
an exception thrown anywhere during the table-specific block is caught
and recorded in the top-level table_analysis_error field. -/
theorem diagnostics_never_raises_and_isolates (oracle : Nat → Outcome) (db n : Int)
    (tt : Option String) :
    ((fetchPostgresDiagnostics oracle db n tt).1.slow_queries =
        (applySlowQueryOutcome (oracle 0) (initDiagReport db n tt)).slow_queries
      ∧ (fetchPostgresDiagnostics oracle db n tt).1.slow_queries_error =
        (applySlowQueryOutcome (oracle 0) (initDiagReport db n tt)).slow_queries_error)
  ∧ (∀ e, oracle 0 = .thrown e →
      (fetchPostgresDiagnostics oracle db n tt).1.slow_queries_error.isSome = true)
  ∧ (∀ s, tt = some s → s ≠ "" → 2 ≤ (fetchPostgresDiagnostics oracle db n tt).2.length)
  ∧ (∀ s, tt = some s → s ≠ "" →
      (∀ e, oracle 1 = .thrown e →
        (fetchPostgresDiagnostics oracle db n tt).1.table_analysis_error.isSome = true)
      ∧ (∀ r1 e, oracle 1 = .resp r1 → oracle 2 = .thrown e →
        (fetchPostgresDiagnostics oracle db n tt).1.table_analysis_error.isSome = true)) := by
  rw [fetchPostgresDiagnostics_eq]
  refine ⟨⟨(tableBlock_slow_fields oracle db tt _).1, (tableBlock_slow_fields oracle db tt _).2.1⟩,
    ?_, ?_, ?_⟩
  · intro e h
    rw [(tableBlock_slow_fields oracle db tt _).2.1, h]
    simp [applySlowQueryOutcome]
  · intro s hs hne
    subst hs
    have hta := slowReport_table_analysis oracle db n s hne
    cases h1 : oracle 1 with
    | thrown e =>
      rw [tableBlock_thrown1 oracle db s hne _ _ hta e h1]
      simp
    | resp r1 =>
      cases h2 : oracle 2 with
      | thrown e =>
        rw [tableBlock_resp1_thrown2 oracle db s hne _ _ hta r1 e h1 h2]
        simp
      | resp r2 =>
        rw [tableBlock_resp1_resp2 oracle db s hne _ _ hta r1 r2 h1 h2]
        simp
  · intro s hs hne
    subst hs
    have hta := slowReport_table_analysis oracle db n s hne
    constructor
    · intro e h1
      rw [tableBlock_thrown1 oracle db s hne _ _ hta e h1]
      rfl
    · intro r1 e h1 h2
      rw [tableBlock_resp1_thrown2 oracle db s hne _ _ hta r1 e h1 h2]
      rfl

/-- A dataset response with a present but empty rows array. -/
def emptyRowsResp : DatasetResponse := { dataRows := some [], status := none, error := none }

/-- A dataset response whose body reports a failed status. -/
def failedResp : DatasetResponse := { dataRows := none, status := some "failed", error := none }

/-- A dataset response with one opaque result row. -/
def oneRowResp : DatasetResponse := { dataRows := some ["row"], status := none, error := none }

/-- An oracle where the slow-query call throws, index usage answers and
the table-scan call throws. -/
def c1Oracle : Nat → Outcome
  | 0 => .thrown { message := some "Bad Gateway", dataMessage := none }
  | 1 => .resp emptyRowsResp
  | _ => .thrown { message := some "Gone", dataMessage := none }

theorem diagnostics_never_raises_and_isolates_witness :
    (fetchPostgresDiagnostics c1Oracle 1 10 (some "users")).1.slow_queries_error.isSome = true
  ∧ 2 ≤ (fetchPostgresDiagnostics c1Oracle 1 10 (some "users")).2.length
  ∧ (fetchPostgresDiagnostics c1Oracle 1 10 (some "users")).1.table_analysis_error.isSome = true := by
  obtain ⟨h1, h2, h3, h4⟩ := diagnostics_never_raises_and_isolates c1Oracle 1 10 (some "users")
  exact ⟨h2 _ rfl, h3 "users" rfl (by decide),
    (h4 "users" rfl (by decide)).2 emptyRowsResp _ rfl rfl⟩

/-- An oracle where the index-usage call throws an upstream error and
every other call answers normally. -/
def c2Oracle : Nat → Outcome
  | 1 => .thrown { message := some "Bad Gateway", dataMessage := none }
  | _ => .resp emptyRowsResp

/-- C2 counterexample: with targetTableName present and the index-usage
call throwing an upstream error (not an error status in its body), only
two dataset payloads are ever issued, so the scan-stats sub-query is
not executed; moreover index_usage_error stays unset and the failure is
recorded in the top-level table_analysis_error instead, refuting the
claimed independence for thrown upstream errors. -/
theorem indexUsage_thrown_error_skips_scan_stats :
    (fetchPostgresDiagnostics c2Oracle 7 10 (some "users")).2.length = 2
  ∧ reportIndexUsageError (fetchPostgresDiagnostics c2Oracle 7 10 (some "users")).1 = none
  ∧ (fetchPostgresDiagnostics c2Oracle 7 10 (some "users")).1.table_analysis_error.isSome = true := by
  exact ⟨rfl, rfl, rfl⟩

/-- C2 amended: when targetTableName is present and nonblank, the two
table sub-queries are independent for failures reported in the response
body: any index-usage response without rows populates only
table_analysis.index_usage_error and the scan-stats sub-query is still
executed, and likewise a scan-stats body failure populates only
table_analysis.scan_stats_error while the index-usage results are kept;
a thrown upstream error, however, aborts the remaining table-specific
work (after an index-usage throw the scan-stats payload is never
issued), leaves the per-query error fields unset, and is recorded in
the top-level table_analysis_error instead. -/
theorem table_subqueries_failure_semantics (oracle : Nat → Outcome) (db n : Int) (s : String)
    (hs : s ≠ "") :
    (∀ r1, oracle 1 = .resp r1 →
        (fetchPostgresDiagnostics oracle db n (some s)).2.length = 3
      ∧ (r1.dataRows = none →
          (reportIndexUsageError (fetchPostgresDiagnostics oracle db n (some s)).1).isSome = true))
  ∧ (∀ r1 r2 rows2, oracle 1 = .resp r1 → oracle 2 = .resp r2 → r2.dataRows = some rows2 →
        reportScanStats (fetchPostgresDiagnostics oracle db n (some s)).1 = some rows2
      ∧ reportScanStatsError (fetchPostgresDiagnostics oracle db n (some s)).1 = none)
  ∧ (∀ r1 r2 rows1, oracle 1 = .resp r1 → oracle 2 = .resp r2 → r1.dataRows = some rows1 →
        reportIndexUsage (fetchPostgresDiagnostics oracle db n (some s)).1 = some rows1
      ∧ reportIndexUsageError (fetchPostgresDiagnostics oracle db n (some s)).1 = none
      ∧ (r2.dataRows = none →
          (reportScanStatsError (fetchPostgresDiagnostics oracle db n (some s)).1).isSome = true))
  ∧ (∀ e, oracle 1 = .thrown e →
        (fetchPostgresDiagnostics oracle db n (some s)).2.length = 2
      ∧ reportIndexUsageError (fetchPostgresDiagnostics oracle db n (some s)).1 = none
      ∧ (fetchPostgresDiagnostics oracle db n (some s)).1.table_analysis_error =
          some (tableCatchMsg s e))
  ∧ (∀ r1 e, oracle 1 = .resp r1 → oracle 2 = .thrown e →
        (fetchPostgresDiagnostics oracle db n (some s)).1.table_analysis =
          some (applyIndexUsageResp r1 { table_name := s, index_usage := [], scan_stats := [] })
      ∧ (fetchPostgresDiagnostics oracle db n (some s)).1.table_analysis_error =
          some (tableCatchMsg s e)) := by
  have hta := slowReport_table_analysis oracle db n s hs
  rw [fetchPostgresDiagnostics_eq]
  refine ⟨?_, ?_, ?_, ?_, ?_⟩
  · intro r1 h1
    constructor
    · cases h2 : oracle 2 with
      | thrown e => rw [tableBlock_resp1_thrown2 oracle db s hs _ _ hta r1 e h1 h2]; rfl
      | resp r2 => rw [tableBlock_resp1_resp2 oracle db s hs _ _ hta r1 r2 h1 h2]; rfl
    · intro hrows
      cases h2 : oracle 2 with
      | thrown e =>
        rw [tableBlock_resp1_thrown2 oracle db s hs _ _ hta r1 e h1 h2,
          reportIndexUsageError_eq _ (applyIndexUsageResp r1 _) rfl]
        exact applyIndexUsageResp_err r1 _ hrows
      | resp r2 =>
        rw [tableBlock_resp1_resp2 oracle db s hs _ _ hta r1 r2 h1 h2,
          reportIndexUsageError_eq _ (applyScanStatsResp r2 (applyIndexUsageResp r1 _)) rfl,
          (applyScanStatsResp_index_fields r2 _).2]
        exact applyIndexUsageResp_err r1 _ hrows
  · intro r1 r2 rows2 h1 h2 hrows
    rw [tableBlock_resp1_resp2 oracle db s hs _ _ hta r1 r2 h1 h2]
    constructor
    · rw [reportScanStats_eq _ (applyScanStatsResp r2 (applyIndexUsageResp r1 _)) rfl,
        applyScanStatsResp_rows r2 _ rows2 hrows]
    · rw [reportScanStatsError_eq _ (applyScanStatsResp r2 (applyIndexUsageResp r1 _)) rfl,
        applyScanStatsResp_rows r2 _ rows2 hrows]
      show (applyIndexUsageResp r1 _).scan_stats_error = none
      rw [(applyIndexUsageResp_scan_fields r1 _).2]
  · intro r1 r2 rows1 h1 h2 hrows
    rw [tableBlock_resp1_resp2 oracle db s hs _ _ hta r1 r2 h1 h2]
    refine ⟨?_, ?_, ?_⟩
    · rw [reportIndexUsage_eq _ (applyScanStatsResp r2 (applyIndexUsageResp r1 _)) rfl,
        (applyScanStatsResp_index_fields r2 _).1, applyIndexUsageResp_rows r1 _ rows1 hrows]
    · rw [reportIndexUsageError_eq _ (applyScanStatsResp r2 (applyIndexUsageResp r1 _)) rfl,
        (applyScanStatsResp_index_fields r2 _).2, applyIndexUsageResp_rows r1 _ rows1 hrows]
    · intro hrows2
      rw [reportScanStatsError_eq _ (applyScanStatsResp r2 (applyIndexUsageResp r1 _)) rfl]
      exact applyScanStatsResp_err r2 _ hrows2
  · intro e h1
    rw [tableBlock_thrown1 oracle db s hs _ _ hta e h1]
    refine ⟨rfl, ?_, rfl⟩
    simp [reportIndexUsageError, hta]
  · intro r1 e h1 h2
    rw [tableBlock_resp1_thrown2 oracle db s hs _ _ hta r1 e h1 h2]
    exact ⟨rfl, rfl⟩

/-- An oracle where index usage fails in the response body and the
table-scan call succeeds with one row. -/
def c2wOracle : Nat → Outcome
  | 1 => .resp failedResp
  | 2 => .resp oneRowResp
  | _ => .resp emptyRowsResp

theorem table_subqueries_failure_semantics_witness :
    (fetchPostgresDiagnostics c2wOracle 7 10 (some "users")).2.length = 3
  ∧ (reportIndexUsageError (fetchPostgresDiagnostics c2wOracle 7 10 (some "users")).1).isSome = true
  ∧ reportScanStats (fetchPostgresDiagnostics c2wOracle 7 10 (some "users")).1 = some ["row"]
  ∧ reportScanStatsError (fetchPostgresDiagnostics c2wOracle 7 10 (some "users")).1 = none := by
  obtain ⟨h1, h2, h3, h4, h5⟩ :=
    table_subqueries_failure_semantics c2wOracle 7 10 "users" (by decide)
  exact ⟨(h1 failedResp rfl).1, (h1 failedResp rfl).2 rfl,
    (h2 failedResp oneRowResp ["row"] rfl rfl rfl).1,
    (h2 failedResp oneRowResp ["row"] rfl rfl rfl).2⟩

theorem tableBlock_none (oracle : Nat → Outcome) (db : Int) (r : DiagnosticsReport) :
    tableBlock oracle db none r = (r, []) := by
  unfold tableBlock
  cases r.table_analysis <;> rfl

theorem fetch_parameters_used (oracle : Nat → Outcome) (db n : Int) (tt : Option String) :
    (fetchPostgresDiagnostics oracle db n tt).1.parameters_used =
      { num_slow_queries := n, target_table_name := jsOrNullOpt tt } := by
  rw [fetchPostgresDiagnostics_eq]
  show (tableBlock oracle db tt _).1.parameters_used = _
  rw [(tableBlock_slow_fields oracle db tt _).2.2, applySlowQueryOutcome_parameters_used]
  rfl

theorem fetch_no_table (oracle : Nat → Outcome) (db n : Int) :
    (fetchPostgresDiagnostics oracle db n none).1.table_analysis = none ∧
    (fetchPostgresDiagnostics oracle db n none).2.length = 1 := by
  rw [fetchPostgresDiagnostics_eq, tableBlock_none]
  refine ⟨?_, rfl⟩
  rw [applySlowQueryOutcome_table_analysis]
  rfl

theorem getPostgresDiagnosticsCase_run (oracle : Nat → Outcome) (d : Int) (hd : d ≠ 0)
    (nsq tt : Option JsVal) :
    getPostgresDiagnosticsCase oracle
        { database_id := some (.num d), num_slow_queries := nsq, target_table_name := tt } =
      (.ok (fetchPostgresDiagnostics oracle d (normaliseNumSlowQueries nsq).1
          (normaliseTargetTable tt).1),
       (normaliseNumSlowQueries nsq).2 ++ (normaliseTargetTable tt).2) := by
  simp only [getPostgresDiagnosticsCase, if_neg hd]

/-- C7: the num_slow_queries value used, echoed in
parameters_used.num_slow_queries, is 10 when the argument is absent,
and any non-positive or non-numeric value is silently replaced by the
default 10 with a warning, without failing the invocation; a positive
numeric value is used as given. -/
theorem num_slow_queries_normalisation (oracle : Nat → Outcome) (d : Int) (hd : d ≠ 0)
    (tt : Option JsVal) (m : Int) (s : String) :
    ((okDiagReport (getPostgresDiagnosticsCase oracle
        { database_id := some (.num d), num_slow_queries := none,
          target_table_name := tt }).1).map
      (fun rep => rep.parameters_used.num_slow_queries) = some 10)
  ∧ (m ≤ 0 →
      ((okDiagReport (getPostgresDiagnosticsCase oracle
          { database_id := some (.num d), num_slow_queries := some (.num m),
            target_table_name := tt }).1).map
        (fun rep => rep.parameters_used.num_slow_queries) = some 10)
      ∧ "Invalid num_slow_queries parameter, using default 10" ∈
          (getPostgresDiagnosticsCase oracle
            { database_id := some (.num d), num_slow_queries := some (.num m),
              target_table_name := tt }).2)
  ∧ (((okDiagReport (getPostgresDiagnosticsCase oracle
        { database_id := some (.num d), num_slow_queries := some (.str s),
          target_table_name := tt }).1).map
      (fun rep => rep.parameters_used.num_slow_queries) = some 10)
      ∧ "Invalid num_slow_queries parameter, using default 10" ∈
          (getPostgresDiagnosticsCase oracle
            { database_id := some (.num d), num_slow_queries := some (.str s),
              target_table_name := tt }).2)
  ∧ (0 < m →
      (okDiagReport (getPostgresDiagnosticsCase oracle
          { database_id := some (.num d), num_slow_queries := some (.num m),
            target_table_name := tt }).1).map
        (fun rep => rep.parameters_used.num_slow_queries) = some m) := by
  refine ⟨?_, ?_, ⟨?_, ?_⟩, ?_⟩
  · rw [getPostgresDiagnosticsCase_run oracle d hd none tt]
    simp [okDiagReport, fetch_parameters_used, normaliseNumSlowQueries]
  · intro hm
    rw [getPostgresDiagnosticsCase_run oracle d hd (some (.num m)) tt]
    constructor
    · simp [okDiagReport, fetch_parameters_used, normaliseNumSlowQueries, if_pos hm]
    · simp [normaliseNumSlowQueries, if_pos hm]
  · rw [getPostgresDiagnosticsCase_run oracle d hd (some (.str s)) tt]
    simp [okDiagReport, fetch_parameters_used, normaliseNumSlowQueries]
  · rw [getPostgresDiagnosticsCase_run oracle d hd (some (.str s)) tt]
    simp [normaliseNumSlowQueries]
  · intro hm
    rw [getPostgresDiagnosticsCase_run oracle d hd (some (.num m)) tt]
    simp [okDiagReport, fetch_parameters_used, normaliseNumSlowQueries, if_neg (by omega : ¬ m ≤ 0)]

theorem num_slow_queries_normalisation_witness :
    ((okDiagReport (getPostgresDiagnosticsCase c1Oracle
        { database_id := some (.num 1), num_slow_queries := some (.num (-5)),
          target_table_name := none }).1).map
      (fun rep => rep.parameters_used.num_slow_queries) = some 10)
  ∧ "Invalid num_slow_queries parameter, using default 10" ∈
      (getPostgresDiagnosticsCase c1Oracle
        { database_id := some (.num 1), num_slow_queries := some (.num (-5)),
          target_table_name := none }).2
  ∧ ((okDiagReport (getPostgresDiagnosticsCase c1Oracle
        { database_id := some (.num 1), num_slow_queries := some (.str "abc"),
          target_table_name := none }).1).map
      (fun rep => rep.parameters_used.num_slow_queries) = some 10)
  ∧ ((okDiagReport (getPostgresDiagnosticsCase c1Oracle
        { database_id := some (.num 1), num_slow_queries := some (.num 5),
          target_table_name := none }).1).map
      (fun rep => rep.parameters_used.num_slow_queries) = some 5) := by
  obtain ⟨h1, h2, h3, h4⟩ :=
    num_slow_queries_normalisation c1Oracle 1 (by decide) none (-5) "abc"
  obtain ⟨g1, g2, g3, g4⟩ :=
    num_slow_queries_normalisation c1Oracle 1 (by decide) none 5 "abc"
  exact ⟨(h2 (by decide)).1, (h2 (by decide)).2, h3.1, g4 (by decide)⟩

/-- C8: a blank or whitespace-only target_table_name is treated as
absent with a warning: the returned report omits table_analysis
entirely, only the slow-query dataset payload is issued, and the
invocation still succeeds. -/
theorem blank_target_table_treated_absent (oracle : Nat → Outcome) (d : Int) (hd : d ≠ 0)
    (nsq : Option JsVal) (s : String) (hs : strTrim s = "") :
    ((okDiagReport (getPostgresDiagnosticsCase oracle
        { database_id := some (.num d), num_slow_queries := nsq,
          target_table_name := some (.str s) }).1).map
      DiagnosticsReport.table_analysis = some none)
  ∧ ((okDiagPayloads (getPostgresDiagnosticsCase oracle
        { database_id := some (.num d), num_slow_queries := nsq,
          target_table_name := some (.str s) }).1).map
      List.length = some 1)
  ∧ "Invalid target_table_name parameter (e.g., empty or not a string), will be ignored." ∈
      (getPostgresDiagnosticsCase oracle
        { database_id := some (.num d), num_slow_queries := nsq,
          target_table_name := some (.str s) }).2 := by
  have htbl : normaliseTargetTable (some (.str s)) =
      (none, ["Invalid target_table_name parameter (e.g., empty or not a string), will be ignored."]) := by
    simp [normaliseTargetTable, hs]
  rw [getPostgresDiagnosticsCase_run oracle d hd nsq (some (.str s))]
  refine ⟨?_, ?_, ?_⟩
  · simp [okDiagReport, htbl, (fetch_no_table oracle d _).1]
  · simp [okDiagPayloads, htbl, (fetch_no_table oracle d _).2]
  · simp [htbl]

theorem blank_target_table_treated_absent_witness :
    ((okDiagReport (getPostgresDiagnosticsCase c1Oracle
        { database_id := some (.num 1), num_slow_queries := none,
          target_table_name := some (.str "  ") }).1).map
      DiagnosticsReport.table_analysis = some none)
  ∧ ((okDiagPayloads (getPostgresDiagnosticsCase c1Oracle
        { database_id := some (.num 1), num_slow_queries := none,
          target_table_name := some (.str "  ") }).1).map
      List.length = some 1) := by
  obtain ⟨h1, h2, h3⟩ :=
    blank_target_table_treated_absent c1Oracle 1 (by decide) none "  " (by decide)
  exact ⟨h1, h2⟩

theorem session_not_api_key (c : ClientState) (hm : c.authMethod = .session) :
    ¬ (c.authMethod = .api_key ∧ jsTruthyOpt c.apiKey = true) := by
  intro hcon
  rw [hm] at hcon
  exact AuthMethod.noConfusion hcon.1

theorem mkClient_api_key (env : Env) (c : ClientState) (hc : mkClient env = some c)
    (hm : c.authMethod = .api_key) :
    jsTruthyOpt c.apiKey = true ∧ c.sessionToken = none := by
  unfold mkClient at hc
  split at hc
  · exact absurd hc (by simp)
  · by_cases hk : jsTruthyOpt env.apiKey = true
    · rw [if_pos hk] at hc
      injection hc with hc
      subst hc
      exact ⟨hk, rfl⟩
    · rw [if_neg hk] at hc
      injection hc with hc
      subst hc
      exact AuthMethod.noConfusion hm

theorem mkClient_session (env : Env) (c : ClientState) (hc : mkClient env = some c)
    (hm : c.authMethod = .session) :
    c.apiKey = none ∧ c.sessionToken = none := by
  unfold mkClient at hc
  split at hc
  · exact absurd hc (by simp)
  · by_cases hk : jsTruthyOpt env.apiKey = true
    · rw [if_pos hk] at hc
      injection hc with hc
      subst hc
      exact AuthMethod.noConfusion hm
    · rw [if_neg hk] at hc
      injection hc with hc
      subst hc
      exact ⟨rfl, rfl⟩

theorem getSessionToken_api_key (o : Except ApiErr String) (c : ClientState)
    (hm : c.authMethod = .api_key) (hk : jsTruthyOpt c.apiKey = true) :
    getSessionToken o c = (.ok (c.apiKey.getD ""), c, []) := by
  unfold getSessionToken
  rw [if_pos ⟨hm, hk⟩]

theorem getSessionTokenSeq_api_key (oracleSeq : Nat → Except ApiErr String) (c : ClientState)
    (hm : c.authMethod = .api_key) (hk : jsTruthyOpt c.apiKey = true) (n : Nat) :
    getSessionTokenSeq oracleSeq c n = (c, []) := by
  induction n generalizing oracleSeq with
  | zero => rfl
  | succ n ih =>
    simp only [getSessionTokenSeq]
    rw [getSessionToken_api_key (oracleSeq 0) c hm hk]
    simp [ih]

/-- C5: when the client is configured in API-key mode, no login call
ever occurs: getSessionToken returns the configured key at once with
the state unchanged and no request issued, and any sequence of
invocations issues zero login calls in total. -/
theorem apiKey_mode_no_login_calls (env : Env) (c : ClientState)
    (hc : mkClient env = some c) (hm : c.authMethod = .api_key)
    (oracleSeq : Nat → Except ApiErr String) (n : Nat) :
    (∀ o, getSessionToken o c = (.ok (c.apiKey.getD ""), c, []))
  ∧ getSessionTokenSeq oracleSeq c n = (c, []) := by
  obtain ⟨hk, -⟩ := mkClient_api_key env c hc hm
  exact ⟨fun o => getSessionToken_api_key o c hm hk,
    getSessionTokenSeq_api_key oracleSeq c hm hk n⟩

/-- Environment configured with an API key. -/
def apiEnv : Env :=
  { metabaseUrl := some "http://mb", userEmail := none, password := none, apiKey := some "mb_key" }

/-- Client state produced by the constructor for apiEnv. -/
def apiClient : ClientState :=
  { authMethod := .api_key, apiKey := some "mb_key", sessionToken := none }

theorem apiKey_mode_no_login_calls_witness :
    getSessionToken (.ok "x") apiClient = (.ok "mb_key", apiClient, [])
  ∧ getSessionTokenSeq (fun _ => .ok "x") apiClient 3 = (apiClient, []) := by
  obtain ⟨h1, h2⟩ :=
    apiKey_mode_no_login_calls apiEnv apiClient (by decide) rfl (fun _ => .ok "x") 3
  exact ⟨h1 (.ok "x"), h2⟩

theorem requestHeaders_no_auth (c : ClientState)
    (h1 : ¬ (c.authMethod = .api_key ∧ jsTruthyOpt c.apiKey = true))
    (h2 : ¬ (c.authMethod = .session ∧ jsTruthyOpt c.sessionToken = true)) :
    requestHeaders c = [("Content-Type", "application/json")] := by
  unfold requestHeaders
  rw [if_neg h1, if_neg h2]

theorem requestHeaders_session_no_token (c : ClientState) (hm : c.authMethod = .session)
    (ht : jsTruthyOpt c.sessionToken = false) :
    requestHeaders c = [("Content-Type", "application/json")] := by
  refine requestHeaders_no_auth c (session_not_api_key c hm) ?_
  intro hcon
  rw [ht] at hcon
  exact Bool.noConfusion hcon.2

theorem requestHeaders_session_token (c : ClientState) (hm : c.authMethod = .session)
    (ht : jsTruthyOpt c.sessionToken = true) :
    requestHeaders c =
      [("Content-Type", "application/json"), ("X-Metabase-Session", c.sessionToken.getD "")] := by
  unfold requestHeaders
  rw [if_neg (session_not_api_key c hm), if_pos ⟨hm, ht⟩]
  rfl

theorem requestHeaders_api_key (c : ClientState) (hm : c.authMethod = .api_key)
    (hk : jsTruthyOpt c.apiKey = true) :
    requestHeaders c =
      [("Content-Type", "application/json"), ("X-API-KEY", c.apiKey.getD "")] := by
  unfold requestHeaders
  rw [if_pos ⟨hm, hk⟩]
  rfl

/-- The McpError thrown when the login request fails. -/
def authFailErr : McpErr :=
  { code := .internalError, message := "Failed to authenticate with Metabase" }

theorem getSessionToken_login (o : Except ApiErr String) (c : ClientState)
    (hm : c.authMethod = .session) (ht : c.sessionToken = none) :
    getSessionToken o c =
      (match o with
       | .ok id => (.ok id, { c with sessionToken := some id },
           [{ path := "/api/session", headers := requestHeaders c }])
       | .error _ => (.error authFailErr, c,
           [{ path := "/api/session", headers := requestHeaders c }])) := by
  unfold getSessionToken
  rw [if_neg (session_not_api_key c hm),
    if_neg (fun hcon => by rw [ht] at hcon; exact Bool.noConfusion hcon)]
  cases o <;> rfl

theorem getSessionToken_cached (o : Except ApiErr String) (c : ClientState)
    (hm : c.authMethod = .session) (tk : String) (htk : tk ≠ "")
    (hc : c.sessionToken = some tk) :
    getSessionToken o c = (.ok tk, c, []) := by
  unfold getSessionToken
  rw [if_neg (session_not_api_key c hm), if_pos (by rw [hc]; simpa [jsTruthyOpt] using htk), hc]
  rfl

theorem getSessionTokenSeq_session_cached (oracleSeq : Nat → Except ApiErr String)
    (c : ClientState) (hm : c.authMethod = .session) (tk : String) (htk : tk ≠ "")
    (hc : c.sessionToken = some tk) (n : Nat) :
    getSessionTokenSeq oracleSeq c n = (c, []) := by
  induction n generalizing oracleSeq with
  | zero => rfl
  | succ n ih =>
    simp only [getSessionTokenSeq]
    rw [getSessionToken_cached (oracleSeq 0) c hm tk htk hc]
    simp [ih]

/-- Environment configured with username and password only. -/
def sessionEnv : Env :=
  { metabaseUrl := some "http://mb", userEmail := some "user@example.com",
    password := some "pw", apiKey := none }

/-- The client state the constructor produces in session mode. -/
def sessionClient : ClientState :=
  { authMethod := .session, apiKey := none, sessionToken := none }

/-- C6 counterexample: if the upstream login response carries an empty
id, the first call caches the empty string and returns it, but the
truthiness-based cache check treats the empty token as absent, so each
subsequent getSessionToken call issues a further login POST: a sequence
of two calls issues two logins, refuting the claimed zero further login
calls once a token has been obtained. -/
theorem empty_session_id_triggers_relogin :
    (getSessionToken (.ok "") sessionClient).2.1.sessionToken = some ""
  ∧ (getSessionTokenSeq (fun _ => .ok "") sessionClient 2).2.length = 2 := by
  exact ⟨rfl, rfl⟩

/-- C6 amended: in session mode the first getSessionToken call issues
one POST /api/session, extracts the id field of the response, caches it
and returns it; provided the extracted id is non-empty (the cache check
uses JS truthiness, so an empty-string id is never seen as cached),
every subsequent call returns the cached token and issues zero further
login calls, with no expiry or refresh logic. -/
theorem session_token_cached_and_reused (c : ClientState) (hm : c.authMethod = .session)
    (ht : c.sessionToken = none) (id : String) (hid : id ≠ "")
    (oracleSeq : Nat → Except ApiErr String) (h0 : oracleSeq 0 = .ok id) (n : Nat) :
    getSessionToken (oracleSeq 0) c =
      (.ok id, { c with sessionToken := some id },
       [{ path := "/api/session", headers := requestHeaders c }])
  ∧ (∀ o, getSessionToken o { c with sessionToken := some id } =
      (.ok id, { c with sessionToken := some id }, []))
  ∧ (getSessionTokenSeq oracleSeq c (n + 1)).2 =
      [{ path := "/api/session", headers := requestHeaders c }] := by
  have hfirst : getSessionToken (oracleSeq 0) c =
      (.ok id, { c with sessionToken := some id },
       [{ path := "/api/session", headers := requestHeaders c }]) := by
    rw [h0, getSessionToken_login (.ok id) c hm ht]
  have hcached : ∀ o, getSessionToken o { c with sessionToken := some id } =
      (.ok id, { c with sessionToken := some id }, []) :=
    fun o => getSessionToken_cached o { c with sessionToken := some id } hm id hid rfl
  have hrest := getSessionTokenSeq_session_cached (fun i => oracleSeq (i + 1))
    { c with sessionToken := some id } hm id hid rfl n
  refine ⟨hfirst, hcached, ?_⟩
  simp only [getSessionTokenSeq]
  rw [hfirst]
  simp [hrest]

theorem session_token_cached_and_reused_witness :
    getSessionToken (.ok "tok") sessionClient =
      (.ok "tok", { sessionClient with sessionToken := some "tok" },
       [{ path := "/api/session", headers := [("Content-Type", "application/json")] }])
  ∧ (getSessionTokenSeq (fun _ => .ok "tok") sessionClient 2).2 =
      [{ path := "/api/session", headers := [("Content-Type", "application/json")] }] := by
  obtain ⟨h1, h2, h3⟩ := session_token_cached_and_reused sessionClient rfl rfl "tok"
    (by decide) (fun _ => .ok "tok") rfl 1
  exact ⟨h1, h3⟩

/-- C9: in session mode while no session token is cached, request
attaches no auth header at all and the login POST itself carries only
the Content-Type header; X-Metabase-Session is attached to a request
exactly when the client is in session mode and a truthy (non-empty)
session token has been cached, and X-API-KEY exactly when the client is
in API-key mode. -/
theorem request_auth_header_policy (env : Env) (c : ClientState) (hc : mkClient env = some c)
    (t : Option String) :
    (c.authMethod = .session →
      requestHeaders { c with sessionToken := none } = [("Content-Type", "application/json")])
  ∧ (c.authMethod = .session → c.sessionToken = none → ∀ o,
      (getSessionToken o c).2.2 =
        [{ path := "/api/session", headers := [("Content-Type", "application/json")] }])
  ∧ ((∃ v, ("X-Metabase-Session", v) ∈ requestHeaders { c with sessionToken := t }) ↔
      (c.authMethod = .session ∧ jsTruthyOpt t = true))
  ∧ ((∃ v, ("X-API-KEY", v) ∈ requestHeaders { c with sessionToken := t }) ↔
      c.authMethod = .api_key) := by
  have hdich : c.authMethod = .session ∨ c.authMethod = .api_key := by
    cases c.authMethod
    · exact Or.inl rfl
    · exact Or.inr rfl
  have h2tok : ({ c with sessionToken := t } : ClientState).sessionToken = t := rfl
  refine ⟨?_, ?_, ?_, ?_⟩
  · intro hm
    exact requestHeaders_session_no_token { c with sessionToken := none } hm rfl
  · intro hm ht o
    have hh := requestHeaders_session_no_token c hm (by rw [ht]; rfl)
    cases o with
    | ok id => rw [getSessionToken_login (.ok id) c hm ht, hh]
    | error e => rw [getSessionToken_login (.error e) c hm ht, hh]
  · rcases hdich with hauth | hauth
    · cases hht : jsTruthyOpt t with
      | true =>
        rw [requestHeaders_session_token { c with sessionToken := t } hauth
          (by rw [h2tok]; exact hht)]
        constructor
        · intro _
          exact ⟨hauth, rfl⟩
        · intro _
          exact ⟨({ c with sessionToken := t } : ClientState).sessionToken.getD "", by simp⟩
      | false =>
        rw [requestHeaders_session_no_token { c with sessionToken := t } hauth
          (by rw [h2tok]; exact hht)]
        constructor
        · rintro ⟨v, hv⟩
          simp at hv
        · rintro ⟨-, hcon⟩
          exact Bool.noConfusion hcon
    · obtain ⟨hk, -⟩ := mkClient_api_key env c hc hauth
      rw [requestHeaders_api_key { c with sessionToken := t } hauth hk]
      constructor
      · rintro ⟨v, hv⟩
        simp at hv
      · rintro ⟨hcon, -⟩
        rw [hauth] at hcon
        exact AuthMethod.noConfusion hcon
  · rcases hdich with hauth | hauth
    · obtain ⟨hk, -⟩ := mkClient_session env c hc hauth
      have hkey : jsTruthyOpt ({ c with sessionToken := t } : ClientState).apiKey = false := by
        show jsTruthyOpt c.apiKey = false
        rw [hk]
        rfl
      constructor
      · rintro ⟨v, hv⟩
        rw [show requestHeaders { c with sessionToken := t } =
            (if ({ c with sessionToken := t } : ClientState).authMethod = .api_key ∧
                jsTruthyOpt ({ c with sessionToken := t } : ClientState).apiKey = true then
              [("Content-Type", "application/json"),
               ("X-API-KEY", ({ c with sessionToken := t } : ClientState).apiKey.getD "")]
            else if ({ c with sessionToken := t } : ClientState).authMethod = .session ∧
                jsTruthyOpt ({ c with sessionToken := t } : ClientState).sessionToken = true then
              [("Content-Type", "application/json"),
               ("X-Metabase-Session",
                ({ c with sessionToken := t } : ClientState).sessionToken.getD "")]
            else [("Content-Type", "application/json")]) from by unfold requestHeaders; rfl] at hv
        rw [if_neg (fun hcon => by rw [hkey] at hcon; exact Bool.noConfusion hcon.2)] at hv
        split at hv <;> simp at hv
      · intro hcon
        rw [hauth] at hcon
        exact AuthMethod.noConfusion hcon
    · obtain ⟨hk, -⟩ := mkClient_api_key env c hc hauth
      rw [requestHeaders_api_key { c with sessionToken := t } hauth hk]
      constructor
      · intro _
        exact hauth
      · intro _
        exact ⟨({ c with sessionToken := t } : ClientState).apiKey.getD "", by simp⟩

theorem request_auth_header_policy_witness :
    requestHeaders { sessionClient with sessionToken := none } =
      [("Content-Type", "application/json")]
  ∧ (∃ v, ("X-Metabase-Session", v) ∈
      requestHeaders { sessionClient with sessionToken := some "tok" })
  ∧ (∃ v, ("X-API-KEY", v) ∈ requestHeaders { apiClient with sessionToken := none }) := by
  obtain ⟨h1, h2, h3, h4⟩ :=
    request_auth_header_policy sessionEnv sessionClient (by decide) (some "tok")
  obtain ⟨g1, g2, g3, g4⟩ :=
    request_auth_header_policy apiEnv apiClient (by decide) none
  exact ⟨h1 rfl, h3.mpr ⟨rfl, by decide⟩, g4.mpr rfl⟩

end MetabaseMcp
